import Mathlib

set_option linter.unusedVariables false

/-!
ScrapeCraft workflow synchronization layer — verification development

Shallow embedding of the frontend workflow synchronization core:

* the workflow store (`frontend/src/store/workflowStore.ts`, given as
  `src/unnamed/part_001`): `setWorkflow`, `updateWorkflowPhase`, `addURLs`
  and the four server-backed mutations `updateURLs`, `updateSchema`,
  `approveAction`, `transitionToPhase`;
* the websocket store and dispatcher
  (`frontend/src/store/websocketStore.ts`, concatenated into
  `SplitView.tsx`): `connect`'s `onclose` reconnection policy,
  `disconnect`, `send`, and `handleWebSocketMessage`;
* the sidebar status derivation `getPhaseStatus`
  (`WorkflowSidebar.tsx`, concatenated into `QuickActions.tsx`).

Asynchronous request/response calls are embedded by passing the eventual
result of the HTTP call (`Except` over an optional error detail) as an
explicit argument; the boolean in each mutation's return value records
whether a request was issued at all.
-/

/-- The workflow phases (enum `WorkflowPhase` in the workflow store). -/
inductive WorkflowPhase
  | initial
  | url_collection
  | url_validation
  | schema_definition
  | schema_validation
  | code_generation
  | ready_to_execute
  | executing
  | completed
  | error
deriving DecidableEq, Repr

/-- Relevance tier of a collected URL (`'high' | 'medium' | 'low'`). -/
inductive Relevance
  | high
  | medium
  | low
deriving DecidableEq, Repr

/-- Structure `URLInfo` from the workflow store. -/
structure URLInfo where
  url : String
  description : String
  relevance : Relevance
  validated : Bool
  validation_reason : Option String
  added_at : String
  added_by : String
deriving DecidableEq, Repr

/-- Structure `SchemaField` from the workflow store. -/
structure SchemaField where
  name : String
  type : String
  description : String
  required : Bool
  «example» : Option String
deriving DecidableEq, Repr

/-- Approval status (`'pending' | 'approved' | 'rejected' | 'expired'`). -/
inductive ApprovalStatus
  | pending
  | approved
  | rejected
  | expired
deriving DecidableEq, Repr

/-- Structure `ApprovalRequest` from the workflow store; the opaque `data` payload is
embedded as a string. -/
structure ApprovalRequest where
  id : String
  phase : WorkflowPhase
  action : String
  data : String
  created_at : String
  expires_at : Option String
  status : ApprovalStatus
deriving DecidableEq, Repr

/-- Structure `WorkflowTransition` from the workflow store. -/
structure WorkflowTransition where
  from_phase : WorkflowPhase
  to_phase : WorkflowPhase
  timestamp : String
  reason : Option String
  triggered_by : String
deriving DecidableEq, Repr

/-- Structure `WorkflowState` from the workflow store: the canonical versioned
snapshot of one pipeline. Opaque `any` payloads are embedded as strings. -/
structure WorkflowState where
  pipeline_id : String
  phase : WorkflowPhase
  urls : List URLInfo
  urls_validated : Bool
  schema_fields : List SchemaField
  schema_validated : Bool
  generated_code : String
  code_validated : Bool
  execution_results : List String
  execution_status : Option String
  pending_approvals : List ApprovalRequest
  approval_history : List ApprovalRequest
  phase_transitions : List WorkflowTransition
  user_modifications : List String
  created_at : String
  updated_at : String
  created_by : String
  last_modified_by : String
  version : Nat
deriving DecidableEq, Repr

/-- The mutable state of the zustand workflow store (`WorkflowStore` minus
its actions). `error = none` embeds the `null` error field. -/
structure WorkflowStoreState where
  currentWorkflow : Option WorkflowState
  workflowHistory : List WorkflowTransition
  pendingApprovals : List ApprovalRequest
  isProcessing : Bool
  error : Option String
deriving DecidableEq, Repr

/-- The store's initial state. -/
def initialStoreState : WorkflowStoreState :=
  { currentWorkflow := none
    workflowHistory := []
    pendingApprovals := []
    isProcessing := false
    error := none }

/-- JavaScript `a || b` for an optional string `a` against a default:
`undefined`, `null` and the empty string are all falsy. -/
def jsOrDefault (d : Option String) (dflt : String) : String :=
  match d with
  | some s => if s = "" then dflt else s
  | none => dflt

/-- Action `setWorkflow`: stores the given snapshot verbatim and mirrors its
pending approvals and transition log into the store-level fields.
No version comparison is performed. -/
def setWorkflow (s : WorkflowStoreState) (w : WorkflowState) : WorkflowStoreState :=
  { s with
    currentWorkflow := some w
    pendingApprovals := w.pending_approvals
    workflowHistory := w.phase_transitions }

/-- Action `updateWorkflowPhase`: overwrites the snapshot's phase in place; the
transition log is not touched. -/
def updateWorkflowPhase (s : WorkflowStoreState) (p : WorkflowPhase) : WorkflowStoreState :=
  { s with currentWorkflow := s.currentWorkflow.map (fun w => { w with phase := p }) }

/-- Action `addURLs`: appends to the snapshot's URL list. -/
def addURLs (s : WorkflowStoreState) (urls : List URLInfo) : WorkflowStoreState :=
  { s with currentWorkflow := s.currentWorkflow.map (fun w => { w with urls := w.urls ++ urls }) }

/-- Action `updateURLs`: posts the URL list and replaces the snapshot with the
response workflow; with no loaded workflow it returns before doing
anything. The boolean records whether the request was issued. -/
def updateURLs (s : WorkflowStoreState) (urls : List URLInfo)
    (result : Except (Option String) WorkflowState) : WorkflowStoreState × Bool :=
  match s.currentWorkflow with
  | none => (s, false)
  | some _ =>
    match result with
    | .ok w =>
        ({ s with currentWorkflow := some w, error := none, isProcessing := false }, true)
    | .error d =>
        ({ s with error := some (jsOrDefault d "Failed to update URLs"),
                  isProcessing := false }, true)

/-- Action `updateSchema`: posts the schema fields and replaces the snapshot with
the response workflow; no-op when no workflow is loaded. -/
def updateSchema (s : WorkflowStoreState) (fields : List SchemaField)
    (result : Except (Option String) WorkflowState) : WorkflowStoreState × Bool :=
  match s.currentWorkflow with
  | none => (s, false)
  | some _ =>
    match result with
    | .ok w =>
        ({ s with currentWorkflow := some w, error := none, isProcessing := false }, true)
    | .error d =>
        ({ s with error := some (jsOrDefault d "Failed to update schema"),
                  isProcessing := false }, true)

/-- Action `approveAction`: posts an approval resolution and replaces the snapshot
and the store-level pending list with the response; no-op when no workflow
is loaded. -/
def approveAction (s : WorkflowStoreState) (approvalId : String) (approved : Bool)
    (reason : Option String)
    (result : Except (Option String) WorkflowState) : WorkflowStoreState × Bool :=
  match s.currentWorkflow with
  | none => (s, false)
  | some _ =>
    match result with
    | .ok w =>
        ({ s with currentWorkflow := some w, pendingApprovals := w.pending_approvals,
                  error := none, isProcessing := false }, true)
    | .error d =>
        ({ s with error := some (jsOrDefault d "Failed to process approval"),
                  isProcessing := false }, true)

/-- Action `transitionToPhase`: posts `{ target_phase, reason }` and replaces the
snapshot with the response workflow; on a rejected request the snapshot is
left alone and only the error field is set. No-op when no workflow is
loaded. -/
def transitionToPhase (s : WorkflowStoreState) (phase : WorkflowPhase)
    (reason : Option String)
    (result : Except (Option String) WorkflowState) : WorkflowStoreState × Bool :=
  match s.currentWorkflow with
  | none => (s, false)
  | some _ =>
    match result with
    | .ok w =>
        ({ s with currentWorkflow := some w, error := none, isProcessing := false }, true)
    | .error d =>
        ({ s with error := some (jsOrDefault d "Failed to transition phase"),
                  isProcessing := false }, true)

/-- A workflow snapshot with every field at a neutral value; concrete test
inputs override individual fields. -/
def defaultWorkflow : WorkflowState :=
  { pipeline_id := "p1"
    phase := WorkflowPhase.initial
    urls := []
    urls_validated := false
    schema_fields := []
    schema_validated := false
    generated_code := ""
    code_validated := false
    execution_results := []
    execution_status := none
    pending_approvals := []
    approval_history := []
    phase_transitions := []
    user_modifications := []
    created_at := "t0"
    updated_at := "t0"
    created_by := "user"
    last_modified_by := "user"
    version := 0 }

/-! ## Transport manager (websocket store) -/

/-- Connection status (`'connecting' | 'connected' | 'disconnected'`). -/
inductive ConnStatus
  | connecting
  | connected
  | disconnected
deriving DecidableEq, Repr

/-- The websocket store's mutable state. `wsOpen` embeds whether a live
socket object is held (`ws !== null`); `pendingReconnect` records the delay
of a reconnect scheduled by the `onclose` handler (`setTimeout`), `none`
when no timer is pending. The source never stores the timer handle, so
nothing in the store can cancel a pending timer. -/
structure ConnState where
  wsOpen : Bool
  status : ConnStatus
  reconnectAttempts : Nat
  pendingReconnect : Option Nat
deriving DecidableEq, Repr

/-- The back-off delay in milliseconds computed by the `onclose` handler:
`Math.min(1000 * Math.pow(2, reconnectAttempts), 10000)`. -/
def reconnectDelay (attempts : Nat) : Nat :=
  min (1000 * 2 ^ attempts) 10000

/-- The `onclose` handler's retry guard: `reconnectAttempts < 5`. -/
def shouldReconnect (attempts : Nat) : Bool :=
  attempts < 5

/-- The `onclose` handler: marks the connection disconnected and, while the
attempt counter is under the cap, schedules a reconnect after the back-off
delay. This handler fires on every close of the underlying socket,
including a close initiated by `disconnect()`. -/
def oncloseHandler (s : ConnState) : ConnState :=
  let s1 := { s with status := ConnStatus.disconnected }
  if shouldReconnect s1.reconnectAttempts then
    { s1 with pendingReconnect := some (reconnectDelay s1.reconnectAttempts) }
  else s1

/-- The `onopen` handler: records the socket, marks the connection
connected and resets the attempt counter. -/
def onopenHandler (s : ConnState) : ConnState :=
  { s with wsOpen := true, status := ConnStatus.connected, reconnectAttempts := 0 }

/-- Method `disconnect()`: when a socket is held, closes it and clears the stored
socket and status. No field recording a pending reconnect timer exists in
the source, so none is touched here. -/
def disconnect (s : ConnState) : ConnState :=
  if s.wsOpen then { s with wsOpen := false, status := ConnStatus.disconnected }
  else s

/-- Method `send(data)`: serializes and transmits only when a socket is held and
the status is `connected`; otherwise the call silently does nothing. The
returned option is the frame handed to the underlying socket, `none` when
the send was dropped; the store state is returned unchanged alongside. -/
def sendMessage (s : ConnState) (d : String) : ConnState × Option String :=
  (s, if s.wsOpen && s.status == ConnStatus.connected then some d else none)

/-! ## Message dispatcher (`handleWebSocketMessage` and `onmessage`) -/

/-- One parsed inbound frame, classified by its `type` discriminant. Field
presence checks (`if (data.state)`, `if (data.workflow)`, …) are embedded
as `Option` payloads; an unrecognized discriminant keeps its raw tag. -/
inductive Frame
  | stateUpdate (state : Option String)
  | workflowUpdate (workflow : Option WorkflowState)
  | workflowState (workflow : Option WorkflowState)
  | approvalRequest (approval : Option ApprovalRequest)
  | executionUpdate
  | errorMsg (message : String)
  | response (respText : Option String) (wfState : Option WorkflowState)
  | unknown (tag : String)
deriving DecidableEq, Repr

/-- A chat transcript message (`chatStore.addMessage` payload). -/
structure ChatMessage where
  id : String
  role : String
  content : String
  timestamp : String
deriving DecidableEq, Repr

/-- The stores the dispatcher can reach: the workflow store, the chat
transcript, and the current pipeline id it reads from the pipeline store
(the pipeline document itself is an external collaborator). -/
structure Stores where
  workflow : WorkflowStoreState
  chatMessages : List ChatMessage
  currentPipelineId : Option String
deriving DecidableEq, Repr

/-- A `window.dispatchEvent(new CustomEvent(...))` emitted by the
dispatcher. -/
inductive WindowEvent
  | workflowStateReceived
  | approvalRequested (approval : ApprovalRequest)
  | websocketError (message : String)
deriving DecidableEq, Repr

/-- What one dispatch produces: the stores after the handler ran, the call
into the external pipeline store (`updatePipeline(id, state)`), if any, and
the window events raised. -/
structure DispatchResult where
  stores : Stores
  pipelineCall : Option (String × String)
  events : List WindowEvent
deriving DecidableEq, Repr

/-- Function `handleWebSocketMessage(data)`: the `switch (type)` dispatcher. `now`
stands for `Date.now().toString()` used to stamp chat messages. -/
def handleWebSocketMessage (now : String) (st : Stores) : Frame → DispatchResult
  | .stateUpdate payload =>
    match payload, st.currentPipelineId with
    | some sp, some pid => ⟨st, some (pid, sp), []⟩
    | _, _ => ⟨st, none, []⟩
  | .workflowUpdate (some w) => ⟨{ st with workflow := setWorkflow st.workflow w }, none, []⟩
  | .workflowUpdate none => ⟨st, none, []⟩
  | .workflowState (some w) =>
    ⟨{ st with workflow := setWorkflow st.workflow w }, none, [WindowEvent.workflowStateReceived]⟩
  | .workflowState none => ⟨st, none, [WindowEvent.workflowStateReceived]⟩
  | .approvalRequest (some a) => ⟨st, none, [WindowEvent.approvalRequested a]⟩
  | .approvalRequest none => ⟨st, none, []⟩
  | .executionUpdate => ⟨st, none, []⟩
  | .errorMsg m => ⟨st, none, [WindowEvent.websocketError m]⟩
  | .response rtext wfs =>
    let st1 := match rtext with
      | some r =>
        { st with chatMessages := st.chatMessages ++ [⟨now, "assistant", r, now⟩] }
      | none => st
    let st2 := match wfs with
      | some w => { st1 with workflow := setWorkflow st1.workflow w }
      | none => st1
    ⟨st2, none, []⟩
  | .unknown _ => ⟨st, none, []⟩

/-- The socket's `onmessage` handler: `JSON.parse` inside `try`/`catch`. A
frame that fails to parse (`none`) is only logged; otherwise the parsed
frame is dispatched. -/
def onmessageHandler (now : String) (st : Stores) (parsed : Option Frame) : DispatchResult :=
  match parsed with
  | none => ⟨st, none, []⟩
  | some f => handleWebSocketMessage now st f

/-! ## Sidebar status derivation (`WorkflowSidebar.getPhaseStatus`) -/

/-- Observer-facing status of one phase entry in the sidebar. -/
inductive PhaseStatus
  | pending
  | active
  | completed
  | error
deriving DecidableEq, Repr

/-- JavaScript `Array.prototype.indexOf` on a string list: the index of the
first occurrence, `-1` when absent. -/
def jsIndexOf : List String → String → Int
  | [], _ => -1
  | a :: rest, x =>
    if a = x then 0
    else
      let r := jsIndexOf rest x
      if r = -1 then -1 else r + 1

/-- The sidebar's ordered phase-id list (the `phases` array's `id`s). -/
def phaseOrder : List String :=
  ["initial", "url_collection", "url_validation", "schema_definition",
   "schema_validation", "code_generation", "ready_to_execute", "executing",
   "completed"]

/-- The sidebar's local view of the workflow state (the `WorkflowState`
interface in `WorkflowSidebar.tsx`; payload fields it never compares are
embedded as opaque strings/lists). -/
structure SidebarWorkflowState where
  pipeline_id : String
  phase : String
  urls : List String
  schema_fields : List String
  generated_code : String
  pending_approvals : List ApprovalRequest
  phase_transitions : List String
  updated_at : String
deriving DecidableEq, Repr

/-- A sidebar state holding a given phase, with neutral remaining fields. -/
def mkSidebarState (phase : String) : SidebarWorkflowState :=
  { pipeline_id := "p1", phase := phase, urls := [], schema_fields := [],
    generated_code := "", pending_approvals := [], phase_transitions := [],
    updated_at := "t0" }

/-- Function `getPhaseStatus(phaseId)`: pure derivation of a phase entry's status
from the held workflow state. -/
def getPhaseStatus (workflowState : Option SidebarWorkflowState)
    (phaseId : String) : PhaseStatus :=
  match workflowState with
  | none => PhaseStatus.pending
  | some ws =>
    let currentIndex := jsIndexOf phaseOrder ws.phase
    let targetIndex := jsIndexOf phaseOrder phaseId
    if ws.phase = "error" then PhaseStatus.error
    else if targetIndex < currentIndex then PhaseStatus.completed
    else if targetIndex = currentIndex then PhaseStatus.active
    else PhaseStatus.pending

/-- The sidebar phase id at a list position. -/
def phaseAt (i : Fin 9) : String :=
  phaseOrder.getD i ""

/-! ## Approval coordinator (backend resolution) -/

/-- Modelled from the spec: the backend Approval Coordinator's `resolve`
(the FastAPI backend is not under `src/`; only its frontend callers are).
Per §4.4, `resolve(approvalId, approved, reason?)` is the only way an
approval leaves the pending set: a pending approval with the given id is
stamped with its terminal status and moved from `pendingApprovals` to
`approvalHistory` (an accepted mutation bumping `version`); when no
pending approval carries the id — already resolved or expired — the call
is a no-op returning the already-recorded outcome. Both channels (push and
request/response) funnel into this one entry point keyed by id. -/
def resolveApproval (w : WorkflowState) (approvalId : String)
    (approved : Bool) : WorkflowState :=
  match w.pending_approvals.find? (fun a => a.id == approvalId) with
  | some a =>
    let resolved :=
      { a with status := if approved then ApprovalStatus.approved else ApprovalStatus.rejected }
    { w with
      pending_approvals := w.pending_approvals.filter (fun b => !(b.id == approvalId))
      approval_history := w.approval_history ++ [resolved]
      version := w.version + 1 }
  | none => w

/-- A sequence of further resolution calls for the same id, in arrival
order, each carrying its own approve/reject outcome. -/
def resolveMany (w : WorkflowState) (approvalId : String) : List Bool → WorkflowState
  | [] => w
  | b :: bs => resolveMany (resolveApproval w approvalId b) approvalId bs

/-- The terminal status recorded in `approvalHistory` for an id. -/
def recordedStatus (w : WorkflowState) (approvalId : String) : Option ApprovalStatus :=
  (w.approval_history.find? (fun a => a.id == approvalId)).map (fun a => a.status)

/-! ## Snapshot/transition-log consistency -/

/-- The §3 invariant: the last transition's `to_phase` equals the
snapshot's phase, or the log is empty and the phase is the initial one. -/
def snapshotConsistent (w : WorkflowState) : Bool :=
  match w.phase_transitions.getLast? with
  | some t => t.to_phase == w.phase
  | none => w.phase == WorkflowPhase.initial

/-- Whether a phase agrees with the last entry of a transition log (the
condition under which overwriting the phase keeps the log consistent). -/
def matchesLastTransition (ts : List WorkflowTransition) (p : WorkflowPhase) : Bool :=
  match ts.getLast? with
  | some t => t.to_phase == p
  | none => p == WorkflowPhase.initial

/-! ## Concrete fixtures -/

/-- The default snapshot at a given version. -/
def wfVersion (n : Nat) : WorkflowState :=
  { defaultWorkflow with version := n }

/-- Dispatcher stores holding a version-5 snapshot. -/
def storesV5 : Stores :=
  ⟨{ initialStoreState with currentWorkflow := some (wfVersion 5) }, [], none⟩

/-- A workflow store holding the default (consistent) snapshot. -/
def storeInitialPhase : WorkflowStoreState :=
  { initialStoreState with currentWorkflow := some defaultWorkflow }

/-- A pending approval with id `A1`. -/
def approvalA1 : ApprovalRequest :=
  ⟨"A1", WorkflowPhase.ready_to_execute, "execute_pipeline", "", "t0", none,
   ApprovalStatus.pending⟩

/-- A snapshot whose pending set holds exactly `approvalA1`. -/
def wfWithA1 : WorkflowState :=
  { defaultWorkflow with pending_approvals := [approvalA1] }

/-! ## Theorems -/

/-- C5: the reconnect delays computed for successive attempt counts are
non-decreasing and bounded by the 10000 ms ceiling, and once the attempt
counter has reached the cap of 5 the `onclose` handler schedules no
further reconnection attempt (it only marks the connection disconnected). -/
theorem backoff_monotone_capped (a : Nat) (s : ConnState)
    (h : 5 ≤ s.reconnectAttempts) :
    reconnectDelay a ≤ reconnectDelay (a + 1)
    ∧ reconnectDelay a ≤ 10000
    ∧ oncloseHandler s = { s with status := ConnStatus.disconnected } := by
  refine ⟨?_, Nat.min_le_right _ _, ?_⟩
  · have hp : (2 : Nat) ^ a ≤ 2 ^ (a + 1) :=
      Nat.pow_le_pow_right (by norm_num) (Nat.le_succ a)
    exact min_le_min (Nat.mul_le_mul_left 1000 hp) le_rfl
  · have hnot : shouldReconnect s.reconnectAttempts = false := by
      simp [shouldReconnect]
      omega
    simp [oncloseHandler, hnot]

/-- Witness for `backoff_monotone_capped` at attempt 2 and a state whose
counter sits at the cap. -/
theorem backoff_monotone_capped_w :
    reconnectDelay 2 ≤ reconnectDelay 3
    ∧ reconnectDelay 2 ≤ 10000
    ∧ oncloseHandler ⟨false, ConnStatus.disconnected, 5, none⟩
        = { (⟨false, ConnStatus.disconnected, 5, none⟩ : ConnState) with
            status := ConnStatus.disconnected } :=
  backoff_monotone_capped 2 ⟨false, ConnStatus.disconnected, 5, none⟩ (by decide)

/-- C8: an inbound frame that fails to parse, and a parsed frame with an
unrecognized discriminant, both leave every store untouched, issue no
pipeline-store call and raise no window event; the handlers are total, so
no exception escapes. -/
theorem dispatcher_drops_malformed_and_unknown (now : String) (st : Stores)
    (tag : String) :
    onmessageHandler now st none = ⟨st, none, []⟩
    ∧ handleWebSocketMessage now st (Frame.unknown tag) = ⟨st, none, []⟩ :=
  ⟨rfl, rfl⟩

/-- C9: `send` never hands a frame to the underlying socket unless a
socket is held and the status is `connected`; in every other state the
call is dropped without queueing and without touching the store state. -/
theorem send_only_when_connected (s : ConnState) (d : String) :
    (sendMessage s d).1 = s
    ∧ ((sendMessage s d).2.isSome = true → s.status = ConnStatus.connected)
    ∧ (s.status ≠ ConnStatus.connected → (sendMessage s d).2 = none) := by
  refine ⟨rfl, ?_, ?_⟩
  · intro h
    simp only [sendMessage] at h
    by_cases hc : (s.wsOpen && s.status == ConnStatus.connected) = true
    · obtain ⟨-, h2⟩ : s.wsOpen = true ∧ s.status = ConnStatus.connected := by
        simpa using hc
      exact h2
    · simp [hc] at h
  · intro hne
    have hb : (s.status == ConnStatus.connected) = false := by
      simp [hne]
    simp [sendMessage, hb]

/-- Witness for `send_only_when_connected` on a disconnected store. -/
theorem send_only_when_connected_w :
    (sendMessage ⟨false, ConnStatus.disconnected, 0, none⟩ "frame").2 = none :=
  (send_only_when_connected ⟨false, ConnStatus.disconnected, 0, none⟩ "frame").2.2
    (by decide)

/-- C10: with no workflow loaded, each of the four server-backed mutation
entry points returns at once: no request is issued (the boolean is
`false`) and the store state, `isProcessing` and `error` included, is
returned unchanged. -/
theorem no_workflow_mutations_noop (s : WorkflowStoreState)
    (urls : List URLInfo) (fields : List SchemaField) (aid : String)
    (ap : Bool) (p : WorkflowPhase) (reason1 reason2 : Option String)
    (r1 r2 r3 r4 : Except (Option String) WorkflowState)
    (h : s.currentWorkflow = none) :
    updateURLs s urls r1 = (s, false)
    ∧ updateSchema s fields r2 = (s, false)
    ∧ approveAction s aid ap reason1 r3 = (s, false)
    ∧ transitionToPhase s p reason2 r4 = (s, false) := by
  refine ⟨?_, ?_, ?_, ?_⟩ <;>
    simp [updateURLs, updateSchema, approveAction, transitionToPhase, h]

/-- Witness for `no_workflow_mutations_noop` on the initial store. -/
theorem no_workflow_mutations_noop_w :
    updateURLs initialStoreState [] (Except.ok defaultWorkflow)
      = (initialStoreState, false)
    ∧ transitionToPhase initialStoreState WorkflowPhase.executing none
        (Except.ok defaultWorkflow) = (initialStoreState, false) := by
  have h := no_workflow_mutations_noop initialStoreState [] [] "A1" true
    WorkflowPhase.executing none none (Except.ok defaultWorkflow)
    (Except.ok defaultWorkflow) (Except.ok defaultWorkflow)
    (Except.ok defaultWorkflow) rfl
  exact ⟨h.1, h.2.2.2⟩

/-- C6: a transition request answered with an error leaves the held
snapshot (its phase included) exactly as it was and surfaces the rejection
detail in the store's error field; the phase is never coerced. -/
theorem rejected_transition_leaves_snapshot (s : WorkflowStoreState)
    (w : WorkflowState) (p : WorkflowPhase) (reason detail : Option String)
    (h : s.currentWorkflow = some w) :
    (transitionToPhase s p reason (Except.error detail)).1.currentWorkflow = some w
    ∧ (transitionToPhase s p reason (Except.error detail)).1.error
        = some (jsOrDefault detail "Failed to transition phase")
    ∧ ((transitionToPhase s p reason (Except.error detail)).1.currentWorkflow.map
        (fun x => x.phase)) = some w.phase := by
  simp [transitionToPhase, h]

/-- Witness for `rejected_transition_leaves_snapshot`: a
`schema_definition` snapshot and a rejected jump to `executing`. -/
theorem rejected_transition_leaves_snapshot_w :
    (transitionToPhase
        { initialStoreState with
          currentWorkflow := some { defaultWorkflow with phase := WorkflowPhase.schema_definition } }
        WorkflowPhase.executing none
        (Except.error (some "Invalid transition from schema_definition to executing"))).1.currentWorkflow
      = some { defaultWorkflow with phase := WorkflowPhase.schema_definition } :=
  (rejected_transition_leaves_snapshot
    { initialStoreState with
      currentWorkflow := some { defaultWorkflow with phase := WorkflowPhase.schema_definition } }
    { defaultWorkflow with phase := WorkflowPhase.schema_definition }
    WorkflowPhase.executing none
    (some "Invalid transition from schema_definition to executing") rfl).1

/-- C7: the sidebar status derivation is a pure function of the held
state: with no state every entry is `pending`; when the snapshot's phase
is `error` every entry is `error`; otherwise an entry is `completed`
below the current phase's index, `active` at it, and `pending` above. -/
theorem phase_status_derivation (phaseId : String) (i j : Fin 9) :
    getPhaseStatus none phaseId = PhaseStatus.pending
    ∧ getPhaseStatus (some (mkSidebarState "error")) phaseId = PhaseStatus.error
    ∧ getPhaseStatus (some (mkSidebarState (phaseAt i))) (phaseAt j)
        = (if (j : Nat) < (i : Nat) then PhaseStatus.completed
           else if (j : Nat) = (i : Nat) then PhaseStatus.active
           else PhaseStatus.pending) := by
  refine ⟨rfl, rfl, ?_⟩
  revert i j
  decide

/-- C3 counterexample: from a freshly connected state, `disconnect()`
followed by the close event it triggers on the socket leaves a scheduled
reconnection timer — the claimed "no reconnection is ever scheduled after
disconnect" fails at this concrete input. -/
theorem disconnect_reconnect_cex :
    (oncloseHandler (disconnect ⟨true, ConnStatus.connected, 0, none⟩)).pendingReconnect
      ≠ none := by
  decide

/-- C3 amended: `disconnect()` closes the socket and clears the stored
socket and status, but stores no timer handle and cancels nothing; the
socket's `onclose` handler still fires, and whenever the attempt counter
is below the cap it schedules a reconnect after the back-off delay — so a
disconnect is followed by an automatically scheduled reconnection attempt
in every such state. -/
theorem disconnect_close_schedules (s : ConnState) (h1 : s.wsOpen = true)
    (h2 : s.reconnectAttempts < 5) :
    disconnect s = { s with wsOpen := false, status := ConnStatus.disconnected }
    ∧ (oncloseHandler (disconnect s)).pendingReconnect
        = some (reconnectDelay s.reconnectAttempts) := by
  constructor
  · simp [disconnect, h1]
  · simp [disconnect, oncloseHandler, shouldReconnect, h1, h2]

/-- Witness for `disconnect_close_schedules` from a connected state. -/
theorem disconnect_close_schedules_w :
    (oncloseHandler (disconnect ⟨true, ConnStatus.connected, 0, none⟩)).pendingReconnect
      = some (reconnectDelay 0) :=
  (disconnect_close_schedules ⟨true, ConnStatus.connected, 0, none⟩ rfl (by decide)).2

/-- C1 counterexample: with a version-5 snapshot held, a push
`workflow_update` carrying a version-3 snapshot changes the held snapshot
— the claimed version-gated discard does not happen. -/
theorem stale_update_cex :
    (wfVersion 3).version ≤ (wfVersion 5).version
    ∧ (handleWebSocketMessage "t" storesV5
          (Frame.workflowUpdate (some (wfVersion 3)))).stores.workflow.currentWorkflow
        ≠ storesV5.workflow.currentWorkflow := by
  decide

/-- C1 amended: every inbound state update — push frame or
request/response result — replaces the held snapshot with the update's
contents unconditionally; no version comparison is performed, so an update
whose version is lower than or equal to the held version still overwrites
the snapshot instead of being discarded as stale. -/
theorem inbound_update_replaces_snapshot (now : String) (st : Stores)
    (w cur : WorkflowState) (hcur : st.workflow.currentWorkflow = some cur)
    (hver : w.version ≤ cur.version) :
    (handleWebSocketMessage now st
        (Frame.workflowUpdate (some w))).stores.workflow.currentWorkflow = some w
    ∧ (updateURLs st.workflow [] (Except.ok w)).1.currentWorkflow = some w := by
  constructor
  · simp [handleWebSocketMessage, setWorkflow]
  · simp [updateURLs, hcur]

/-- Witness for `inbound_update_replaces_snapshot`: a version-3 update
against a held version-5 snapshot. -/
theorem inbound_update_replaces_snapshot_w :
    (handleWebSocketMessage "t" storesV5
        (Frame.workflowUpdate (some (wfVersion 3)))).stores.workflow.currentWorkflow
      = some (wfVersion 3) :=
  (inbound_update_replaces_snapshot "t" storesV5 (wfVersion 3) (wfVersion 5)
    rfl (by decide)).1

/-- C4 counterexample: starting from a consistent snapshot (empty log,
initial phase), `updateWorkflowPhase` moves the phase to `url_collection`
without appending any transition, leaving a snapshot that violates the
log/phase consistency invariant. -/
theorem phase_log_cex :
    snapshotConsistent defaultWorkflow = true
    ∧ ((updateWorkflowPhase storeInitialPhase
          WorkflowPhase.url_collection).currentWorkflow.map snapshotConsistent)
        = some false := by
  decide

/-- C4 amended: `setWorkflow` stores the given snapshot verbatim (so the
log/phase consistency invariant holds afterwards exactly when the incoming
snapshot satisfies it), `addURLs` leaves phase and log untouched and so
preserves it, but `updateWorkflowPhase` overwrites the phase without
appending to the transitions log, so afterwards the invariant holds only
when the new phase already agrees with the last logged `to_phase` (or the
log is empty and the new phase is the initial one). -/
theorem phase_log_consistency (s : WorkflowStoreState) (w : WorkflowState)
    (p : WorkflowPhase) (urls : List URLInfo)
    (h : s.currentWorkflow = some w) :
    ((setWorkflow s w).currentWorkflow.map snapshotConsistent)
        = some (snapshotConsistent w)
    ∧ ((addURLs s urls).currentWorkflow.map snapshotConsistent)
        = some (snapshotConsistent w)
    ∧ ((updateWorkflowPhase s p).currentWorkflow.map snapshotConsistent)
        = some (matchesLastTransition w.phase_transitions p) := by
  refine ⟨by simp [setWorkflow], ?_, ?_⟩
  · simp [addURLs, h, snapshotConsistent]
  · simp [updateWorkflowPhase, h, snapshotConsistent, matchesLastTransition]

/-- Witness for `phase_log_consistency` on the default snapshot. -/
theorem phase_log_consistency_w :
    ((updateWorkflowPhase storeInitialPhase
        WorkflowPhase.url_collection).currentWorkflow.map snapshotConsistent)
      = some (matchesLastTransition defaultWorkflow.phase_transitions
          WorkflowPhase.url_collection) :=
  (phase_log_consistency storeInitialPhase defaultWorkflow
    WorkflowPhase.url_collection [] rfl).2.2

/-- Filtering out an id leaves a list in which a search for that id fails. -/
theorem find?_filter_id_none (l : List ApprovalRequest) (aid : String) :
    (l.filter (fun b => !(b.id == aid))).find? (fun a => a.id == aid) = none := by
  apply List.find?_eq_none.mpr
  intro x hx
  have hmem := List.mem_filter.mp hx
  simp at hmem
  simp [hmem.2]

/-- A resolution call whose id matches nothing pending is a no-op. -/
theorem resolveApproval_noop (w : WorkflowState) (aid : String) (b : Bool)
    (h : w.pending_approvals.find? (fun a => a.id == aid) = none) :
    resolveApproval w aid b = w := by
  simp [resolveApproval, h]

/-- Any further sequence of resolution calls for an id that matches
nothing pending leaves the snapshot fixed. -/
theorem resolveMany_noop (w : WorkflowState) (aid : String) (bs : List Bool)
    (h : w.pending_approvals.find? (fun a => a.id == aid) = none) :
    resolveMany w aid bs = w := by
  induction bs with
  | nil => rfl
  | cons b bs ih =>
    simp only [resolveMany, resolveApproval_noop w aid b h]
    exact ih

/-- Searching an appended list starts over in the suffix when the prefix
holds no match. -/
theorem find?_append_of_none (l₁ l₂ : List ApprovalRequest)
    (p : ApprovalRequest → Bool) (h : l₁.find? p = none) :
    (l₁ ++ l₂).find? p = l₂.find? p := by
  induction l₁ with
  | nil => rfl
  | cons x xs ih =>
    cases hpx : p x with
    | true => simp [List.find?, hpx] at h
    | false =>
      simp only [List.find?, hpx] at h
      simp only [List.cons_append, List.find?, hpx]
      exact ih h

/-- C2: with exactly one pending approval carrying an id and no history
entry for it, resolving that id once and then any number of further times
— in any order of channels and with any mix of approve/reject outcomes,
since both channels funnel into the same id-keyed `resolve` — changes
nothing after the first call: the snapshot equals the one-call snapshot,
the recorded terminal status is the first call's outcome, and
`approvalHistory` holds exactly one entry for the id. -/
theorem approval_first_resolution_wins (w : WorkflowState) (aid : String)
    (b : Bool) (bs : List Bool)
    (hpend : (w.pending_approvals.find? (fun a => a.id == aid)).isSome = true)
    (hhist : w.approval_history.countP (fun a => a.id == aid) = 0) :
    resolveMany (resolveApproval w aid b) aid bs = resolveApproval w aid b
    ∧ recordedStatus (resolveMany (resolveApproval w aid b) aid bs) aid
        = some (if b then ApprovalStatus.approved else ApprovalStatus.rejected)
    ∧ (resolveMany (resolveApproval w aid b) aid bs).approval_history.countP
        (fun a => a.id == aid) = 1 := by
  obtain ⟨a, ha⟩ := Option.isSome_iff_exists.mp hpend
  have haid : (a.id == aid) = true := by
    have h2 := List.find?_some ha
    exact h2
  have hres : resolveApproval w aid b =
      { w with
        pending_approvals := w.pending_approvals.filter (fun x => !(x.id == aid))
        approval_history := w.approval_history ++
          [{ a with status := if b then ApprovalStatus.approved else ApprovalStatus.rejected }]
        version := w.version + 1 } := by
    simp [resolveApproval, ha]
  have hnone : (resolveApproval w aid b).pending_approvals.find?
      (fun x => x.id == aid) = none := by
    rw [hres]
    exact find?_filter_id_none _ _
  have hfix : resolveMany (resolveApproval w aid b) aid bs = resolveApproval w aid b :=
    resolveMany_noop _ _ _ hnone
  have hhfind : w.approval_history.find? (fun x => x.id == aid) = none := by
    apply List.find?_eq_none.mpr
    intro x hx
    have := List.countP_eq_zero.mp hhist x hx
    simpa using this
  refine ⟨hfix, ?_, ?_⟩
  · rw [hfix, hres]
    unfold recordedStatus
    simp only [find?_append_of_none _ _ _ hhfind, List.find?]
    simp [haid]
  · rw [hfix, hres]
    simp only [List.countP_append, hhist]
    simp [List.countP_cons, haid]

/-- Witness for `approval_first_resolution_wins`: approval `A1` resolved
approved first, then rejected by the racing second channel. -/
theorem approval_first_resolution_wins_w :
    resolveMany (resolveApproval wfWithA1 "A1" true) "A1" [false]
        = resolveApproval wfWithA1 "A1" true
    ∧ recordedStatus (resolveMany (resolveApproval wfWithA1 "A1" true) "A1" [false]) "A1"
        = some (if true then ApprovalStatus.approved else ApprovalStatus.rejected)
    ∧ (resolveMany (resolveApproval wfWithA1 "A1" true) "A1" [false]).approval_history.countP
        (fun a => a.id == "A1") = 1 :=
  approval_first_resolution_wins wfWithA1 "A1" true [false] (by decide) (by decide)
